import Mathlib

/-!
Shallow embedding of the tropical-fish color-band calculator
(capacitor and resistor decoding engine) and proofs of the
specification claims about it.

Numeric values that the Go source holds in `float64` are modelled as
exact rationals (`ℚ`); all arithmetic in the source stays well inside
the exactly representable range for the facts proved here.
-/

namespace Tropical

/-- Color represents a capacitor band color. -/
inductive Color where
  | black
  | brown
  | red
  | orange
  | yellow
  | green
  | blue
  | violet
  | grey
  | white
  | gold
  | silver
deriving DecidableEq, Repr, Fintype

/-- ColorInfo contains all information about a color band. -/
structure ColorInfo where
  Name : String
  Digit : Int
  Multiplier : ℚ
  HexColor : String
  ValidDigit : Bool
  ValidMult : Bool
  ValidTol : Bool
deriving DecidableEq, Repr

/-- colorMap maps colors to their properties (the Go `colorMap`, total
over the 12 colors). -/
def colorMap : Color → ColorInfo
  | .black  => ⟨"Black", 0, 1, "#000000", true, true, true⟩
  | .brown  => ⟨"Brown", 1, 10, "#8B4513", true, true, true⟩
  | .red    => ⟨"Red", 2, 100, "#FF0000", true, true, true⟩
  | .orange => ⟨"Orange", 3, 1000, "#FF8C00", true, true, true⟩
  | .yellow => ⟨"Yellow", 4, 10000, "#FFFF00", true, true, true⟩
  | .green  => ⟨"Green", 5, 100000, "#00FF00", true, true, true⟩
  | .blue   => ⟨"Blue", 6, 1000000, "#0000FF", true, true, false⟩
  | .violet => ⟨"Violet", 7, 10000000, "#9400D3", true, true, false⟩
  | .grey   => ⟨"Grey", 8, 1/100, "#808080", true, true, true⟩
  | .white  => ⟨"White", 9, 1/10, "#FFFFFF", true, true, true⟩
  | .gold   => ⟨"Gold", -1, 1/10, "#FFD700", false, true, true⟩
  | .silver => ⟨"Silver", -1, 1/100, "#C0C0C0", false, true, true⟩

/-- GetColorInfo returns information about a color. -/
def GetColorInfo (c : Color) : ColorInfo := colorMap c

/-- ToleranceInfo represents tolerance specifications. -/
structure ToleranceInfo where
  PercentHigh : ℚ
  PercentLow : ℚ
  Symmetric : Bool
  AbsolutePF : ℚ
deriving DecidableEq, Repr

/-- toleranceMap maps colors to capacitor tolerance values; Blue and
Violet are absent from the Go map. -/
def toleranceMap : Color → Option ToleranceInfo
  | .black  => some ⟨20, 20, true, 0⟩
  | .brown  => some ⟨1, 1, true, 1/10⟩
  | .red    => some ⟨2, 2, true, 1/4⟩
  | .orange => some ⟨3, 3, true, 0⟩
  | .yellow => some ⟨4, 4, true, 0⟩
  | .green  => some ⟨5, 5, true, 1/2⟩
  | .gold   => some ⟨5, 5, true, 0⟩
  | .white  => some ⟨10, 10, true, 1⟩
  | .silver => some ⟨10, 10, true, 0⟩
  | .grey   => some ⟨80, 20, false, 0⟩
  | _       => none

/-- GetToleranceInfo returns tolerance information for a color. -/
def GetToleranceInfo (c : Color) : Option ToleranceInfo := toleranceMap c

/-- temperatureCoefficientMap maps colors to capacitor temperature
coefficients. -/
def temperatureCoefficientMap : Color → Option Int
  | .brown  => some (-33)
  | .red    => some (-75)
  | .orange => some (-150)
  | .yellow => some (-220)
  | .green  => some (-330)
  | .blue   => some (-470)
  | .violet => some (-750)
  | _       => none

/-- GetTempCoefficient returns the capacitor temperature coefficient
for a color. -/
def GetTempCoefficient (c : Color) : Option Int := temperatureCoefficientMap c

/-- scaleCapacitance converts pF to the most appropriate unit,
returning value and unit. -/
def scaleCapacitance (pF : ℚ) : ℚ × String :=
  if pF ≥ 1000000000 then (pF / 1000000000, "mF")
  else if pF ≥ 1000000 then (pF / 1000000, "µF")
  else if pF ≥ 1000 then (pF / 1000, "nF")
  else (pF, "pF")

/-- The tolerance-related fields of a capacitor calculation result. -/
structure TolResult where
  ToleranceType : String
  TolerancePercent : ℚ
  ToleranceAbsolutePF : ℚ
  ToleranceSymmetric : Bool
  ToleranceHigh : ℚ
  ToleranceLow : ℚ
  MinValue : ℚ
  MaxValue : ℚ
  MinUnit : String
  MaxUnit : String
deriving DecidableEq, Repr

/-- calculateTolerance computes the tolerance range for a capacitor
from the already computed capacitance (in pF) and the band-4 color,
mirroring the Go function (which mutates the result record; the
min/max values are unit-scaled at the end exactly as in the source).
Returns `none` where the source returns the invalid-tolerance error. -/
def calculateTolerance (capacitancePF : ℚ) (band4 : Color) : Option TolResult :=
  match GetToleranceInfo band4 with
  | none => none
  | some tolInfo =>
    if capacitancePF ≤ 10 then
      if tolInfo.AbsolutePF = 0 then
        -- color has no absolute tolerance: fall back to percentage
        some { ToleranceType := "percentage"
               TolerancePercent := tolInfo.PercentHigh
               ToleranceAbsolutePF := tolInfo.AbsolutePF
               ToleranceSymmetric := tolInfo.Symmetric
               ToleranceHigh := tolInfo.PercentHigh
               ToleranceLow := tolInfo.PercentLow
               MinValue := (scaleCapacitance (capacitancePF * (1 - tolInfo.PercentLow / 100))).1
               MaxValue := (scaleCapacitance (capacitancePF * (1 + tolInfo.PercentHigh / 100))).1
               MinUnit := (scaleCapacitance (capacitancePF * (1 - tolInfo.PercentLow / 100))).2
               MaxUnit := (scaleCapacitance (capacitancePF * (1 + tolInfo.PercentHigh / 100))).2 }
      else
        -- the computed minimum is floored at 0
        some { ToleranceType := "absolute"
               TolerancePercent := 0
               ToleranceAbsolutePF := tolInfo.AbsolutePF
               ToleranceSymmetric := tolInfo.Symmetric
               ToleranceHigh := tolInfo.PercentHigh
               ToleranceLow := tolInfo.PercentLow
               MinValue := (scaleCapacitance
                 (if capacitancePF - tolInfo.AbsolutePF < 0 then 0
                  else capacitancePF - tolInfo.AbsolutePF)).1
               MaxValue := (scaleCapacitance (capacitancePF + tolInfo.AbsolutePF)).1
               MinUnit := (scaleCapacitance
                 (if capacitancePF - tolInfo.AbsolutePF < 0 then 0
                  else capacitancePF - tolInfo.AbsolutePF)).2
               MaxUnit := (scaleCapacitance (capacitancePF + tolInfo.AbsolutePF)).2 }
    else
      some { ToleranceType := "percentage"
             TolerancePercent := tolInfo.PercentHigh
             ToleranceAbsolutePF := 0
             ToleranceSymmetric := tolInfo.Symmetric
             ToleranceHigh := tolInfo.PercentHigh
             ToleranceLow := tolInfo.PercentLow
             MinValue := (scaleCapacitance (capacitancePF * (1 - tolInfo.PercentLow / 100))).1
             MaxValue := (scaleCapacitance (capacitancePF * (1 + tolInfo.PercentHigh / 100))).1
             MinUnit := (scaleCapacitance (capacitancePF * (1 - tolInfo.PercentLow / 100))).2
             MaxUnit := (scaleCapacitance (capacitancePF * (1 + tolInfo.PercentHigh / 100))).2 }

/-- CapacitorType represents different capacitor types. -/
inductive CapacitorType where
  | J
  | K
  | L
  | M
  | N
deriving DecidableEq, Repr, Fintype

/-- TypeInfo contains information about each capacitor type (the Go
`Type` field is renamed `Typ`, `Type` being reserved in Lean). -/
structure TypeInfo where
  Typ : CapacitorType
  Name : String
  Description : String
  Voltages : List Int
deriving DecidableEq, Repr

/-- typeInfoMap stores details about each capacitor type (total over
the five type codes). -/
def typeInfoMap : CapacitorType → TypeInfo
  | .J => ⟨.J, "Dipped Tantalum", "Type J (Dipped Tantalum)",
          [3, 4, 6, 10, 15, 20, 25, 35, 50]⟩
  | .K => ⟨.K, "Mica", "Type K (Mica)",
          [100, 200, 300, 400, 500, 600, 700, 800, 900, 1000, 2000]⟩
  | .L => ⟨.L, "Polyester / Polystyrene", "Type L (Polyester / Polystyrene)",
          [100, 250, 400, 630]⟩
  | .M => ⟨.M, "Electrolytic (4-band style)", "Type M (Electrolytic 4-Band)",
          [0, 2, 4, 6, 10, 16, 25, 40]⟩
  | .N => ⟨.N, "Electrolytic (3-band style)", "Type N (Electrolytic 3-Band)",
          [3, 6, 0, 10, 15, 20, 25, 35]⟩

/-- The Type M special voltage map with fractional values, keyed by
the band-5 color digit (the map literal inside the Go
`GetVoltageRatingFractional`). -/
def typeMVoltageMap : Int → Option ℚ
  | 0 => some 0
  | 1 => some (8/5)
  | 2 => some (5/2)
  | 3 => some 4
  | 4 => some (63/10)
  | 5 => some 10
  | 6 => some 16
  | 7 => some 25
  | 8 => some 40
  | _ => none

/-- GetVoltageRatingFractional returns the voltage rating including
fractional values, with a validity flag. -/
def GetVoltageRatingFractional (capType : CapacitorType) (band5Color : Color) :
    ℚ × Bool :=
  let typeInfo := typeInfoMap capType
  let colorInfo := GetColorInfo band5Color
  if colorInfo.Digit < 0 then (0, false)
  else if capType = .M then
    match typeMVoltageMap colorInfo.Digit with
    | some v => if v > 0 then (v, true) else (0, false)
    | none => (0, false)
  else if capType = .N ∧ colorInfo.Digit = 2 then (63/10, true)
  else if colorInfo.Digit ≥ typeInfo.Voltages.length then (0, false)
  else
    let voltage := typeInfo.Voltages.getD colorInfo.Digit.toNat 0
    if voltage = 0 then (0, false) else ((voltage : ℚ), true)

/-- The error cases of the capacitor and resistor calculation engines,
one constructor per distinct Go error branch. -/
inductive CalcError where
  | invalidDigit
  | invalidMultiplier
  | invalidTolerance
  | invalidBandCount
deriving DecidableEq, Repr

/-- CapacitorReading represents the parsed bands from user input. -/
structure CapacitorReading where
  Band1 : Color
  Band2 : Color
  Band3 : Color
  Band4 : Color
  Band5 : Color
  BandCount : Int
  CapType : CapacitorType
deriving DecidableEq, Repr

/-- CalculationResult contains all calculated values for a capacitor. -/
structure CalculationResult where
  CapacitancePF : ℚ
  CapacitanceValue : ℚ
  CapacitanceUnit : String
  ToleranceType : String
  TolerancePercent : ℚ
  ToleranceAbsolutePF : ℚ
  ToleranceSymmetric : Bool
  ToleranceHigh : ℚ
  ToleranceLow : ℚ
  MinValue : ℚ
  MaxValue : ℚ
  MinUnit : String
  MaxUnit : String
  VoltageRating : ℚ
  VoltageValid : Bool
  TempCoefficient : Int
  TempCoeffValid : Bool
  Reading : CapacitorReading
deriving DecidableEq, Repr

/-- Calculate performs all calculations for a capacitor reading. -/
def Calculate (reading : CapacitorReading) : Except CalcError CalculationResult :=
  let info1 := GetColorInfo reading.Band1
  let info2 := GetColorInfo reading.Band2
  let info3 := GetColorInfo reading.Band3
  if !info1.ValidDigit || !info2.ValidDigit then
    .error .invalidDigit
  else if !info3.ValidMult then
    .error .invalidMultiplier
  else
    let baseValue : ℚ := ((info1.Digit * 10 + info2.Digit : Int) : ℚ)
    let capacitancePF := baseValue * info3.Multiplier
    match calculateTolerance capacitancePF reading.Band4 with
    | none => .error .invalidTolerance
    | some tol =>
      let voltagePair :=
        if reading.BandCount ≥ 4 ∧ reading.Band5 ≠ .black then
          GetVoltageRatingFractional reading.CapType reading.Band5
        else ((0 : ℚ), false)
      let tempPair :=
        if reading.BandCount = 5 then
          match GetTempCoefficient reading.Band5 with
          | some coeff => (coeff, true)
          | none => ((0 : Int), false)
        else ((0 : Int), false)
      .ok { CapacitancePF := capacitancePF
            CapacitanceValue := (scaleCapacitance capacitancePF).1
            CapacitanceUnit := (scaleCapacitance capacitancePF).2
            ToleranceType := tol.ToleranceType
            TolerancePercent := tol.TolerancePercent
            ToleranceAbsolutePF := tol.ToleranceAbsolutePF
            ToleranceSymmetric := tol.ToleranceSymmetric
            ToleranceHigh := tol.ToleranceHigh
            ToleranceLow := tol.ToleranceLow
            MinValue := tol.MinValue
            MaxValue := tol.MaxValue
            MinUnit := tol.MinUnit
            MaxUnit := tol.MaxUnit
            VoltageRating := voltagePair.1
            VoltageValid := voltagePair.2
            TempCoefficient := tempPair.1
            TempCoeffValid := tempPair.2
            Reading := reading }

/-- ResistorReading represents parsed resistor bands. -/
structure ResistorReading where
  Band1 : Color
  Band2 : Color
  Band3 : Color
  Band4 : Color
  Band5 : Color
  Band6 : Color
  BandCount : Int
deriving DecidableEq, Repr

/-- ResistorResult contains calculated resistor values. -/
structure ResistorResult where
  ResistanceOhms : ℚ
  ResistanceValue : ℚ
  ResistanceUnit : String
  TolerancePercent : ℚ
  MinValue : ℚ
  MaxValue : ℚ
  MinUnit : String
  MaxUnit : String
  TempCoefficient : Int
  TempCoeffValid : Bool
  Reading : ResistorReading
deriving DecidableEq, Repr

/-- ResistorToleranceInfo represents tolerance specifications for
resistors. -/
structure ResistorToleranceInfo where
  Percent : ℚ
  Name : String
deriving DecidableEq, Repr

/-- resistorToleranceMap maps colors to resistor tolerance values
(Black, Orange, Yellow and White are absent from the Go map). -/
def resistorToleranceMap : Color → Option ResistorToleranceInfo
  | .brown  => some ⟨1, "±1% (precision)"⟩
  | .red    => some ⟨2, "±2% (precision)"⟩
  | .green  => some ⟨1/2, "±0.5% (high precision)"⟩
  | .blue   => some ⟨1/4, "±0.25% (high precision)"⟩
  | .violet => some ⟨1/10, "±0.1% (ultra precision)"⟩
  | .grey   => some ⟨1/20, "±0.05% (ultra precision)"⟩
  | .gold   => some ⟨5, "±5% (standard)"⟩
  | .silver => some ⟨10, "±10% (standard)"⟩
  | _       => none

/-- resistorTempCoefficientMap maps colors to resistor temperature
coefficients (ppm per degree Celsius). -/
def resistorTempCoefficientMap : Color → Option Int
  | .black  => some 250
  | .brown  => some 100
  | .red    => some 50
  | .orange => some 15
  | .yellow => some 25
  | .green  => some 20
  | .blue   => some 10
  | .violet => some 5
  | .grey   => some 1
  | _       => none

/-- resistorMultiplierMap extends the colorMap multipliers with
resistor-specific values (Gold 0.1, Silver 0.01); one entry per color. -/
def resistorMultiplierMap : Color → Option ℚ
  | .black  => some 1
  | .brown  => some 10
  | .red    => some 100
  | .orange => some 1000
  | .yellow => some 10000
  | .green  => some 100000
  | .blue   => some 1000000
  | .violet => some 10000000
  | .grey   => some 100000000
  | .white  => some 1000000000
  | .gold   => some (1/10)
  | .silver => some (1/100)

/-- GetResistorMultiplier returns the multiplier for a given color,
with the map-existence flag. -/
def GetResistorMultiplier (c : Color) : ℚ × Bool :=
  match resistorMultiplierMap c with
  | some mult => (mult, true)
  | none => (0, false)

/-- GetResistorTolerance returns tolerance information for a color. -/
def GetResistorTolerance (c : Color) : Option ResistorToleranceInfo :=
  resistorToleranceMap c

/-- GetResistorTempCoefficient returns the temperature coefficient for
a color, with the map-existence flag. -/
def GetResistorTempCoefficient (c : Color) : Int × Bool :=
  match resistorTempCoefficientMap c with
  | some coeff => (coeff, true)
  | none => (0, false)

/-- scaleResistance converts ohms to the most appropriate unit,
returning value and unit. -/
def scaleResistance (ohms : ℚ) : ℚ × String :=
  if ohms ≥ 1000000000 then (ohms / 1000000000, "GΩ")
  else if ohms ≥ 1000000 then (ohms / 1000000, "MΩ")
  else if ohms ≥ 1000 then (ohms / 1000, "kΩ")
  else (ohms, "Ω")

/-- CalculateResistor performs all calculations for a resistor
reading.  The band-count switch yields the base value, the multiplier
color and (for 6 bands) the temperature coefficient. -/
def CalculateResistor (reading : ResistorReading) :
    Except CalcError ResistorResult :=
  let step : Except CalcError (ℚ × Color × Int × Bool) :=
    if reading.BandCount = 4 then
      let info1 := GetColorInfo reading.Band1
      let info2 := GetColorInfo reading.Band2
      if !info1.ValidDigit || !info2.ValidDigit then .error .invalidDigit
      else .ok (((info1.Digit * 10 + info2.Digit : Int) : ℚ),
                reading.Band3, 0, false)
    else if reading.BandCount = 5 then
      let info1 := GetColorInfo reading.Band1
      let info2 := GetColorInfo reading.Band2
      let info3 := GetColorInfo reading.Band3
      if !info1.ValidDigit || !info2.ValidDigit || !info3.ValidDigit then
        .error .invalidDigit
      else .ok (((info1.Digit * 100 + info2.Digit * 10 + info3.Digit : Int) : ℚ),
                reading.Band4, 0, false)
    else if reading.BandCount = 6 then
      let info1 := GetColorInfo reading.Band1
      let info2 := GetColorInfo reading.Band2
      let info3 := GetColorInfo reading.Band3
      if !info1.ValidDigit || !info2.ValidDigit || !info3.ValidDigit then
        .error .invalidDigit
      else
        let tempPair := GetResistorTempCoefficient reading.Band6
        .ok (((info1.Digit * 100 + info2.Digit * 10 + info3.Digit : Int) : ℚ),
             reading.Band4, tempPair.1, tempPair.2)
    else .error .invalidBandCount
  match step with
  | .error e => .error e
  | .ok (baseValue, multiplierColor, tempCoeff, tempValid) =>
    let multPair := GetResistorMultiplier multiplierColor
    if !multPair.2 then .error .invalidMultiplier
    else
      let resistanceOhms := baseValue * multPair.1
      let toleranceColor :=
        if reading.BandCount ≥ 5 then reading.Band5 else reading.Band4
      match GetResistorTolerance toleranceColor with
      | none => .error .invalidTolerance
      | some tolInfo =>
        let minOhms := resistanceOhms * (1 - tolInfo.Percent / 100)
        let maxOhms := resistanceOhms * (1 + tolInfo.Percent / 100)
        .ok { ResistanceOhms := resistanceOhms
              ResistanceValue := (scaleResistance resistanceOhms).1
              ResistanceUnit := (scaleResistance resistanceOhms).2
              TolerancePercent := tolInfo.Percent
              MinValue := (scaleResistance minOhms).1
              MaxValue := (scaleResistance maxOhms).1
              MinUnit := (scaleResistance minOhms).2
              MaxUnit := (scaleResistance maxOhms).2
              TempCoefficient := tempCoeff
              TempCoeffValid := tempValid
              Reading := reading }

/-- The name-to-color lookup table inside the Go `ParseColor`
("gray" is an alternative spelling of Grey). -/
def colorNameLookup (s : String) : Option Color :=
  if s = "black" then some .black
  else if s = "brown" then some .brown
  else if s = "red" then some .red
  else if s = "orange" then some .orange
  else if s = "yellow" then some .yellow
  else if s = "green" then some .green
  else if s = "blue" then some .blue
  else if s = "violet" then some .violet
  else if s = "grey" then some .grey
  else if s = "gray" then some .grey
  else if s = "white" then some .white
  else if s = "gold" then some .gold
  else if s = "silver" then some .silver
  else none

/-- Character-wise lowercasing (the Go `strings.ToLower`; ASCII-exact,
which covers every recognized color name). -/
def toLowerStr (s : String) : String := ⟨s.data.map Char.toLower⟩

/-- Whitespace predicate used for trimming (the ASCII cases of Go's
`unicode.IsSpace`). -/
def isSpaceChar (c : Char) : Bool := c = ' ' || c = '\t' || c = '\n' || c = '\r'

/-- Surrounding-whitespace removal (the Go `strings.TrimSpace`). -/
def trimSpace (s : String) : String :=
  ⟨((s.data.dropWhile isSpaceChar).reverse.dropWhile isSpaceChar).reverse⟩

/-- ParseColor converts a string input to a Color: the input is
whitespace-trimmed and lowercased, then looked up. -/
def ParseColor (input : String) : Option Color :=
  colorNameLookup (toLowerStr (trimSpace input))

/-- AllColorNames returns a list of all valid color display names. -/
def AllColorNames : List String :=
  ["Black", "Brown", "Red", "Orange", "Yellow", "Green",
   "Blue", "Violet", "Grey", "White", "Gold", "Silver"]

/-- ValidationError represents a validation error with context. -/
structure ValidationError where
  BandNumber : Int
  Message : String
deriving DecidableEq, Repr

/-- ValidateBand4 validates the capacitor tolerance band; for small
capacitances (at most 10 pF) a color without an absolute-pF tolerance
is also rejected. Returns `none` when the band is accepted. -/
def ValidateBand4 (color : Color) (capacitancePF : ℚ) : Option ValidationError :=
  match GetToleranceInfo color with
  | none =>
    some ⟨4, (GetColorInfo color).Name ++ " is not valid for tolerance band"⟩
  | some tolInfo =>
    if capacitancePF ≤ 10 ∧ tolInfo.AbsolutePF = 0 then
      some ⟨4, (GetColorInfo color).Name ++
        " tolerance not typically used for capacitors ≤10pF (use Brown, Red, Green, or White for absolute tolerance)"⟩
    else none

/-- ValidateBandCount validates the capacitor band count selection. -/
def ValidateBandCount (count : Int) : Option String :=
  if count < 3 ∨ count > 5 then some "band count must be 3, 4, or 5"
  else none

/-- ValidateResistorBandCount validates the resistor band count
selection. -/
def ValidateResistorBandCount (count : Int) : Option String :=
  if count < 4 ∨ count > 6 then some "resistor band count must be 4, 5, or 6"
  else none

/-! ### Helper lemmas -/

/-- Below the first threshold the capacitance scaler is the identity. -/
theorem scaleCapacitance_small {v : ℚ} (h : v < 1000) :
    scaleCapacitance v = (v, "pF") := by
  unfold scaleCapacitance
  rw [if_neg (by linarith), if_neg (by linarith), if_neg (by linarith)]

/-- Below the first threshold the resistance scaler is the identity. -/
theorem scaleResistance_small {v : ℚ} (h : v < 1000) :
    scaleResistance v = (v, "Ω") := by
  unfold scaleResistance
  rw [if_neg (by linarith), if_neg (by linarith), if_neg (by linarith)]

/-! ### Claim theorems -/

/-- Claim C7: unit auto-scaling is boundary-exact with powers-of-1000
thresholds, inclusive on the lower unit's upper bound, for both
capacitance (pF, nF, µF, mF) and resistance (Ω, kΩ, MΩ, GΩ); in
particular 999 pF stays pF, 1000 pF becomes nF, 999999 pF stays nF,
and 1000000 pF becomes µF. -/
theorem c7_unit_scaling_boundaries :
    (∀ v : ℚ, 0 ≤ v →
      (v < 1000 → scaleCapacitance v = (v, "pF")) ∧
      (1000 ≤ v → v < 1000000 → scaleCapacitance v = (v / 1000, "nF")) ∧
      (1000000 ≤ v → v < 1000000000 → scaleCapacitance v = (v / 1000000, "µF")) ∧
      (1000000000 ≤ v → scaleCapacitance v = (v / 1000000000, "mF")) ∧
      (v < 1000 → scaleResistance v = (v, "Ω")) ∧
      (1000 ≤ v → v < 1000000 → scaleResistance v = (v / 1000, "kΩ")) ∧
      (1000000 ≤ v → v < 1000000000 → scaleResistance v = (v / 1000000, "MΩ")) ∧
      (1000000000 ≤ v → scaleResistance v = (v / 1000000000, "GΩ"))) ∧
    scaleCapacitance 999 = (999, "pF") ∧
    scaleCapacitance 1000 = (1, "nF") ∧
    scaleCapacitance 999999 = (999999 / 1000, "nF") ∧
    scaleCapacitance 1000000 = (1, "µF") := by
  refine ⟨fun v _ => ?_, ?_, ?_, ?_, ?_⟩
  · unfold scaleCapacitance scaleResistance
    refine ⟨fun h => ?_, fun h1 h2 => ?_, fun h1 h2 => ?_, fun h1 => ?_,
            fun h => ?_, fun h1 h2 => ?_, fun h1 h2 => ?_, fun h1 => ?_⟩ <;>
      split_ifs <;> first | rfl | linarith
  all_goals norm_num [scaleCapacitance]

/-- Claim C7 witness: the general scaling statement applied at the
concrete value 500. -/
theorem c7_witness :
    (0 : ℚ) ≤ 500 ∧
    ((500 : ℚ) < 1000 → scaleCapacitance 500 = (500, "pF")) :=
  ⟨by decide, (c7_unit_scaling_boundaries.1 500 (by decide)).1⟩

/-- Claim C9: color parsing round-trips on every display name
(case-insensitively, ignoring surrounding whitespace), "GREY" and
"gray" parse to the same color, and text whose trimmed lowercase form
is not a recognized name yields no color at all rather than a
default. -/
theorem c9_parse_color_round_trip :
    (∀ c : Color, ParseColor (GetColorInfo c).Name = some c) ∧
    ParseColor "GREY" = ParseColor "gray" ∧
    ParseColor "GREY" = some .grey ∧
    ParseColor "  ReD " = some .red ∧
    (∀ s : String,
      toLowerStr (trimSpace s) ∉
        ["black", "brown", "red", "orange", "yellow", "green", "blue",
         "violet", "grey", "gray", "white", "gold", "silver"] →
      ParseColor s = none) := by
  refine ⟨by decide, by decide, by decide, by decide, fun s hs => ?_⟩
  simp only [List.mem_cons, List.not_mem_nil, or_false, not_or] at hs
  obtain ⟨h1, h2, h3, h4, h5, h6, h7, h8, h9, h10, h11, h12, h13⟩ := hs
  simp [ParseColor, colorNameLookup, h1, h2, h3, h4, h5, h6, h7, h8, h9,
    h10, h11, h12, h13]

/-- Claim C9 witness: the unknown-text clause applied at the concrete
string "notacolor". -/
theorem c9_witness :
    (toLowerStr (trimSpace "notacolor") ∉
      ["black", "brown", "red", "orange", "yellow", "green", "blue",
       "violet", "grey", "gray", "white", "gold", "silver"]) ∧
    ParseColor "notacolor" = none :=
  ⟨by decide, c9_parse_color_round_trip.2.2.2.2 "notacolor" (by decide)⟩

/-- Claim C10: the resistor multiplier table is total over the 12
colors, so the invalid-multiplier branch of CalculateResistor is
unreachable: every error it returns is invalid-digit,
invalid-tolerance or invalid-band-count, never invalid-multiplier. -/
theorem c10_resistor_multiplier_totality :
    (∀ c : Color, (GetResistorMultiplier c).2 = true) ∧
    (∀ (rd : ResistorReading) (e : CalcError), CalculateResistor rd = .error e →
      e = .invalidDigit ∨ e = .invalidTolerance ∨ e = .invalidBandCount) := by
  have multTotal : ∀ c : Color, (GetResistorMultiplier c).2 = true := by decide
  refine ⟨multTotal, fun rd e h => ?_⟩
  unfold CalculateResistor at h
  repeat' split at h
  all_goals simp_all [multTotal]
  all_goals (repeat' split at h)
  all_goals simp_all
  all_goals (rename_i e2 heq; split at heq <;> simp_all)

/-- Claim C10 witness: the error classification applied to a concrete
reading whose band count 7 makes CalculateResistor fail. -/
theorem c10_witness :
    CalculateResistor ⟨.black, .black, .black, .black, .black, .black, 7⟩ =
      .error .invalidBandCount ∧
    (CalcError.invalidBandCount = .invalidDigit ∨
     CalcError.invalidBandCount = .invalidTolerance ∨
     CalcError.invalidBandCount = .invalidBandCount) :=
  ⟨by rfl,
   c10_resistor_multiplier_totality.2
     ⟨.black, .black, .black, .black, .black, .black, 7⟩ .invalidBandCount (by rfl)⟩

/-- Claim C2 counterexample: the capacitor decode function does not
reject band counts outside the legal set: a reading with band count 7
is decoded without error, refuting the claim that Calculate rejects
any band count outside 3..5. -/
theorem c2_counterexample :
    (Calculate ⟨.brown, .black, .brown, .brown, .black, 7, .K⟩).isOk = true := by
  norm_num [Calculate, GetColorInfo, colorMap, calculateTolerance, GetToleranceInfo,
    toleranceMap, scaleCapacitance, Except.isOk, Except.toBool]

/-- Claim C2 (amended): CalculateResistor rejects any band count
outside 4..6 with the invalid-band-count error; capacitor band counts
are instead checked by the separate validator ValidateBandCount, which
accepts exactly 3..5, while Calculate itself never inspects the band
count for validity (its success is unchanged under any band count). -/
theorem c2_amended_band_count_validation :
    (∀ rd : ResistorReading,
      rd.BandCount ≠ 4 → rd.BandCount ≠ 5 → rd.BandCount ≠ 6 →
      CalculateResistor rd = .error .invalidBandCount) ∧
    (∀ n : Int, ValidateBandCount n = none ↔ 3 ≤ n ∧ n ≤ 5) ∧
    (∀ (rd : CapacitorReading) (n : Int),
      (Calculate { rd with BandCount := n }).isOk = (Calculate rd).isOk) := by
  refine ⟨fun rd h4 h5 h6 => ?_, fun n => ?_, fun rd n => ?_⟩
  · unfold CalculateResistor
    rw [if_neg h4, if_neg h5, if_neg h6]
  · unfold ValidateBandCount
    split_ifs with h
    · constructor
      · intro hc; cases hc
      · intro hc; rcases h with h | h <;> omega
    · push_neg at h
      simp [h.1, h.2]
  · unfold Calculate
    dsimp only
    by_cases h1 :
        (!(GetColorInfo rd.Band1).ValidDigit || !(GetColorInfo rd.Band2).ValidDigit) = true
    · rw [if_pos h1, if_pos h1]
    · rw [if_neg h1, if_neg h1]
      by_cases h2 : (!(GetColorInfo rd.Band3).ValidMult) = true
      · rw [if_pos h2, if_pos h2]
      · rw [if_neg h2, if_neg h2]
        cases calculateTolerance
          ((((GetColorInfo rd.Band1).Digit * 10 + (GetColorInfo rd.Band2).Digit : Int) : ℚ) *
            (GetColorInfo rd.Band3).Multiplier) rd.Band4 <;> rfl

/-- Claim C2 witness: the resistor rejection applied to a concrete
7-band reading. -/
theorem c2_witness :
    ((7 : Int) ≠ 4 ∧ (7 : Int) ≠ 5 ∧ (7 : Int) ≠ 6) ∧
    CalculateResistor ⟨.black, .black, .black, .black, .black, .black, 7⟩ =
      .error .invalidBandCount :=
  ⟨⟨by decide, by decide, by decide⟩,
   c2_amended_band_count_validation.1
     ⟨.black, .black, .black, .black, .black, .black, 7⟩
     (by decide) (by decide) (by decide)⟩

/-- Every capacitor tolerance-table entry has absolute tolerance in
[0,1], low percentage in [0,20] and high percentage in [0,80]. -/
theorem toleranceMapBounds :
    ∀ (c : Color) (ti : ToleranceInfo), toleranceMap c = some ti →
      0 ≤ ti.AbsolutePF ∧ ti.AbsolutePF ≤ 1 ∧
      0 ≤ ti.PercentLow ∧ ti.PercentLow ≤ 20 ∧
      0 ≤ ti.PercentHigh ∧ ti.PercentHigh ≤ 80 := by
  intro c ti h
  cases c <;> simp only [toleranceMap, Option.some.injEq, reduceCtorEq] at h <;>
    (subst h; norm_num)

/-- Claim C1: for every band-4 color present in the capacitor
tolerance table, the tolerance branch is selected as follows: raw
picofarads at most 10 with a nonzero absolute-pF entry gives the
absolute branch with min/max = raw minus/plus absolute (min floored at 0);
raw at most 10 with a zero absolute entry falls back to the percentage
branch; raw above 10 always uses the percentage branch. The colors
with nonzero absolute entries are exactly Brown, Red, Green and White.
Concretely, raw 10 with Brown gives absolute bounds [9.9, 10.1] pF,
raw 10 with Orange gives percentage 3, and raw 10.01 with Brown gives
percentage 1. -/
theorem c1_capacitor_tolerance_branch_selection :
    (∀ (c : Color) (ti : ToleranceInfo) (raw : ℚ),
      toleranceMap c = some ti → 0 ≤ raw →
      ∃ r, calculateTolerance raw c = some r ∧
        ((raw ≤ 10 → ti.AbsolutePF ≠ 0 →
            r.ToleranceType = "absolute" ∧
            r.MinValue = max (raw - ti.AbsolutePF) 0 ∧ r.MinUnit = "pF" ∧
            r.MaxValue = raw + ti.AbsolutePF ∧ r.MaxUnit = "pF") ∧
         (raw ≤ 10 → ti.AbsolutePF = 0 →
            r.ToleranceType = "percentage" ∧
            r.MinValue = raw * (1 - ti.PercentLow / 100) ∧ r.MinUnit = "pF" ∧
            r.MaxValue = raw * (1 + ti.PercentHigh / 100) ∧ r.MaxUnit = "pF") ∧
         (10 < raw → r.ToleranceType = "percentage" ∧
            r.TolerancePercent = ti.PercentHigh))) ∧
    (∀ (c : Color) (ti : ToleranceInfo), toleranceMap c = some ti →
      (¬ti.AbsolutePF = 0 ↔ (c = .brown ∨ c = .red ∨ c = .green ∨ c = .white))) ∧
    ((calculateTolerance 10 .brown).map
      (fun r => (r.ToleranceType, r.ToleranceAbsolutePF,
                 r.MinValue, r.MinUnit, r.MaxValue, r.MaxUnit)) =
      some ("absolute", 1/10, 99/10, "pF", 101/10, "pF")) ∧
    ((calculateTolerance 10 .orange).map
      (fun r => (r.ToleranceType, r.TolerancePercent)) = some ("percentage", 3)) ∧
    ((calculateTolerance (1001/100) .brown).map
      (fun r => (r.ToleranceType, r.TolerancePercent)) = some ("percentage", 1)) := by
  refine ⟨fun c ti raw hti h0 => ?_, fun c ti hti => ?_, ?_, ?_, ?_⟩
  · obtain ⟨ha0, ha1, hl0, hl1, hh0, hh1⟩ := toleranceMapBounds c ti hti
    simp only [calculateTolerance, GetToleranceInfo, hti]
    by_cases h10 : raw ≤ 10
    · rw [if_pos h10]
      by_cases habs : ti.AbsolutePF = 0
      · rw [if_pos habs]
        have hmin : raw * (1 - ti.PercentLow / 100) < 1000 := by nlinarith
        have hmax : raw * (1 + ti.PercentHigh / 100) < 1000 := by nlinarith
        refine ⟨_, rfl, fun _ hne => absurd habs hne, fun _ _ => ?_,
                fun hgt => absurd hgt (not_lt.2 h10)⟩
        refine ⟨rfl, ?_, ?_, ?_, ?_⟩
        · show (scaleCapacitance _).1 = _
          rw [scaleCapacitance_small hmin]
        · show (scaleCapacitance _).2 = _
          rw [scaleCapacitance_small hmin]
        · show (scaleCapacitance _).1 = _
          rw [scaleCapacitance_small hmax]
        · show (scaleCapacitance _).2 = _
          rw [scaleCapacitance_small hmax]
      · rw [if_neg habs]
        have hite : (if raw - ti.AbsolutePF < 0 then (0 : ℚ)
            else raw - ti.AbsolutePF) = max (raw - ti.AbsolutePF) 0 := by
          split_ifs with h
          · exact (max_eq_right h.le).symm
          · exact (max_eq_left (not_lt.1 h)).symm
        have hmin : (if raw - ti.AbsolutePF < 0 then (0 : ℚ)
            else raw - ti.AbsolutePF) < 1000 := by
          split_ifs with h <;> linarith
        have hmax : raw + ti.AbsolutePF < 1000 := by linarith
        refine ⟨_, rfl, fun _ _ => ?_, fun _ h0' => absurd h0' habs,
                fun hgt => absurd hgt (not_lt.2 h10)⟩
        refine ⟨rfl, ?_, ?_, ?_, ?_⟩
        · show (scaleCapacitance _).1 = _
          rw [scaleCapacitance_small hmin]; exact hite
        · show (scaleCapacitance _).2 = _
          rw [scaleCapacitance_small hmin]
        · show (scaleCapacitance _).1 = _
          rw [scaleCapacitance_small hmax]
        · show (scaleCapacitance _).2 = _
          rw [scaleCapacitance_small hmax]
    · rw [if_neg h10]
      exact ⟨_, rfl, fun hle _ => absurd hle h10, fun hle _ => absurd hle h10,
             fun _ => ⟨rfl, rfl⟩⟩
  · cases c <;> simp only [toleranceMap, Option.some.injEq, reduceCtorEq] at hti <;>
      (subst hti; norm_num; try decide)
  · norm_num [calculateTolerance, GetToleranceInfo, toleranceMap, scaleCapacitance]
  · norm_num [calculateTolerance, GetToleranceInfo, toleranceMap, scaleCapacitance]
  · norm_num [calculateTolerance, GetToleranceInfo, toleranceMap, scaleCapacitance]

/-- Claim C1 witness: the branch-selection statement applied to Brown
at the concrete raw value 5 pF. -/
theorem c1_witness :
    toleranceMap .brown = some ⟨1, 1, true, 1/10⟩ ∧ (0 : ℚ) ≤ 5 ∧
    (∃ r, calculateTolerance 5 .brown = some r ∧
      (((5 : ℚ) ≤ 10 → (⟨1, 1, true, 1/10⟩ : ToleranceInfo).AbsolutePF ≠ 0 →
          r.ToleranceType = "absolute" ∧
          r.MinValue = max ((5 : ℚ) - (⟨1, 1, true, 1/10⟩ : ToleranceInfo).AbsolutePF) 0 ∧
          r.MinUnit = "pF" ∧
          r.MaxValue = (5 : ℚ) + (⟨1, 1, true, 1/10⟩ : ToleranceInfo).AbsolutePF ∧
          r.MaxUnit = "pF") ∧
       ((5 : ℚ) ≤ 10 → (⟨1, 1, true, 1/10⟩ : ToleranceInfo).AbsolutePF = 0 →
          r.ToleranceType = "percentage" ∧
          r.MinValue = 5 * (1 - (⟨1, 1, true, 1/10⟩ : ToleranceInfo).PercentLow / 100) ∧
          r.MinUnit = "pF" ∧
          r.MaxValue = 5 * (1 + (⟨1, 1, true, 1/10⟩ : ToleranceInfo).PercentHigh / 100) ∧
          r.MaxUnit = "pF") ∧
       ((10 : ℚ) < 5 → r.ToleranceType = "percentage" ∧
          r.TolerancePercent = (⟨1, 1, true, 1/10⟩ : ToleranceInfo).PercentHigh))) :=
  ⟨rfl, by decide,
   c1_capacitor_tolerance_branch_selection.1 .brown ⟨1, 1, true, 1/10⟩ 5 rfl (by decide)⟩

/-- Claim C3: Grey is the only asymmetric capacitor tolerance color
(+80 percent / -20 percent): above 10 pF its bounds are raw times 0.8
and raw times 1.8 (scaled to units), concretely 800 pF and 1800 pF for
raw 1000 pF; every other color in the capacitor tolerance table has
equal high and low percentages, and resistor min/max bounds always use
the same percentage in both directions. -/
theorem c3_grey_asymmetric_tolerance :
    (∀ raw : ℚ, 10 < raw →
      ∃ r, calculateTolerance raw .grey = some r ∧
        r.ToleranceSymmetric = false ∧ r.ToleranceHigh = 80 ∧ r.ToleranceLow = 20 ∧
        (r.MinValue, r.MinUnit) = scaleCapacitance (raw * (1 - 20 / 100)) ∧
        (r.MaxValue, r.MaxUnit) = scaleCapacitance (raw * (1 + 80 / 100))) ∧
    ((calculateTolerance 1000 .grey).map
      (fun r => ((r.MinValue, r.MinUnit), (r.MaxValue, r.MaxUnit))) =
      some ((800, "pF"), scaleCapacitance 1800)) ∧
    (∀ (c : Color) (ti : ToleranceInfo), c ≠ .grey → toleranceMap c = some ti →
      ti.PercentHigh = ti.PercentLow ∧ ti.Symmetric = true) ∧
    (∀ (rd : ResistorReading) (res : ResistorResult), CalculateResistor rd = .ok res →
      (res.MinValue, res.MinUnit) =
        scaleResistance (res.ResistanceOhms * (1 - res.TolerancePercent / 100)) ∧
      (res.MaxValue, res.MaxUnit) =
        scaleResistance (res.ResistanceOhms * (1 + res.TolerancePercent / 100))) := by
  refine ⟨fun raw hgt => ?_, ?_, fun c ti hne hti => ?_, fun rd res h => ?_⟩
  · simp only [calculateTolerance, GetToleranceInfo, toleranceMap]
    rw [if_neg (not_le.2 hgt)]
    exact ⟨_, rfl, rfl, rfl, rfl, rfl, rfl⟩
  · norm_num [calculateTolerance, GetToleranceInfo, toleranceMap, scaleCapacitance]
  · cases c <;> simp only [toleranceMap, Option.some.injEq, reduceCtorEq] at hti <;>
      first
      | exact absurd rfl hne
      | (subst hti; exact ⟨rfl, rfl⟩)
  · unfold CalculateResistor at h
    repeat' split at h
    all_goals simp_all
    all_goals (repeat' split at h)
    all_goals simp_all
    all_goals (subst h; exact ⟨rfl, rfl⟩)

/-- Claim C3 witness: the Grey asymmetric statement applied at the
concrete raw value 2000 pF. -/
theorem c3_witness :
    (10 : ℚ) < 2000 ∧
    (∃ r, calculateTolerance 2000 .grey = some r ∧
      r.ToleranceSymmetric = false ∧ r.ToleranceHigh = 80 ∧ r.ToleranceLow = 20 ∧
      (r.MinValue, r.MinUnit) = scaleCapacitance (2000 * (1 - 20 / 100)) ∧
      (r.MaxValue, r.MaxUnit) = scaleCapacitance (2000 * (1 + 80 / 100))) :=
  ⟨by decide, c3_grey_asymmetric_tolerance.1 2000 (by decide)⟩

/-- The capacitor tolerance computation succeeds exactly when the
band-4 color is in the tolerance table. -/
theorem calculateToleranceIsSome (pF : ℚ) (c : Color) :
    (calculateTolerance pF c).isSome = (GetToleranceInfo c).isSome := by
  rcases hG : GetToleranceInfo c with _ | ti
  · simp [calculateTolerance, hG]
  · simp only [calculateTolerance, hG]
    split_ifs <;> rfl

/-- Claim C5: every successful capacitor decode computes raw
picofarads equal to (digit(Band1) times 10 + digit(Band2)) times
multiplier(Band3); readings with digit-valid bands 1-2, a
multiplier-valid band 3 and a tabled band 4 do succeed with that
value; a digit-invalid band 1 or 2 fails with the invalid-digit error,
and digit-valid bands with a multiplier-invalid band 3 fail with the
invalid-multiplier error. -/
theorem c5_capacitance_formula :
    (∀ (rd : CapacitorReading) (res : CalculationResult),
      Calculate rd = .ok res →
      res.CapacitancePF =
        (((GetColorInfo rd.Band1).Digit * 10 + (GetColorInfo rd.Band2).Digit : Int) : ℚ) *
          (GetColorInfo rd.Band3).Multiplier) ∧
    (∀ rd : CapacitorReading,
      (GetColorInfo rd.Band1).ValidDigit = true →
      (GetColorInfo rd.Band2).ValidDigit = true →
      (GetColorInfo rd.Band3).ValidMult = true →
      (GetToleranceInfo rd.Band4).isSome = true →
      ∃ res, Calculate rd = .ok res ∧
        res.CapacitancePF =
          (((GetColorInfo rd.Band1).Digit * 10 + (GetColorInfo rd.Band2).Digit : Int) : ℚ) *
            (GetColorInfo rd.Band3).Multiplier) ∧
    (∀ rd : CapacitorReading,
      (GetColorInfo rd.Band1).ValidDigit = false ∨
        (GetColorInfo rd.Band2).ValidDigit = false →
      Calculate rd = .error .invalidDigit) ∧
    (∀ rd : CapacitorReading,
      (GetColorInfo rd.Band1).ValidDigit = true →
      (GetColorInfo rd.Band2).ValidDigit = true →
      (GetColorInfo rd.Band3).ValidMult = false →
      Calculate rd = .error .invalidMultiplier) := by
  refine ⟨fun rd res h => ?_, fun rd h1 h2 h3 h4 => ?_, fun rd hor => ?_,
          fun rd h1 h2 h3 => ?_⟩
  · unfold Calculate at h
    repeat' split at h
    all_goals simp_all
    all_goals (repeat' split at h)
    all_goals simp_all
    all_goals (subst h; rfl)
  · have h4' : (calculateTolerance
        ((((GetColorInfo rd.Band1).Digit * 10 + (GetColorInfo rd.Band2).Digit : Int) : ℚ) *
          (GetColorInfo rd.Band3).Multiplier) rd.Band4).isSome = true := by
      rw [calculateToleranceIsSome]; exact h4
    obtain ⟨tol, htol⟩ := Option.isSome_iff_exists.mp h4'
    unfold Calculate
    rw [if_neg (by simp [h1, h2]), if_neg (by simp [h3])]
    simp only [htol]
    exact ⟨_, rfl, rfl⟩
  · rcases hor with h | h <;> simp [Calculate, h]
  · unfold Calculate
    rw [if_neg (by simp [h1, h2]), if_pos (by simp [h3])]

/-- Claim C5 witness: the formula applied to the concrete reading
Red, Violet, Orange (27000 pF), and the invalid-digit error applied to
a reading with Band1 Gold. -/
theorem c5_witness :
    ((GetColorInfo Color.red).ValidDigit = true ∧
     (GetColorInfo Color.violet).ValidDigit = true ∧
     (GetColorInfo Color.orange).ValidMult = true ∧
     (GetToleranceInfo Color.brown).isSome = true) ∧
    (∃ res, Calculate ⟨.red, .violet, .orange, .brown, .black, 4, .K⟩ = .ok res ∧
      res.CapacitancePF =
        (((GetColorInfo Color.red).Digit * 10 + (GetColorInfo Color.violet).Digit : Int) : ℚ) *
          (GetColorInfo Color.orange).Multiplier) ∧
    Calculate ⟨.gold, .black, .brown, .brown, .black, 4, .K⟩ = .error .invalidDigit :=
  ⟨⟨rfl, rfl, rfl, rfl⟩,
   c5_capacitance_formula.2.1 ⟨.red, .violet, .orange, .brown, .black, 4, .K⟩
     rfl rfl rfl rfl,
   c5_capacitance_formula.2.2.1 ⟨.gold, .black, .brown, .brown, .black, 4, .K⟩
     (Or.inl rfl)⟩

/-- Claim C6: resistor band semantics shift with band count: a 4-band
reading uses base digit(B1) times 10 + digit(B2), multiplier from B3
and tolerance from B4; 5- and 6-band readings use the three-digit base
with multiplier from B4 and tolerance from B5, the 6-band reading
additionally taking its temperature coefficient from B6. Concretely
Yellow, Violet, Black, Brown, Brown with 5 bands gives 4700 ohms,
tolerance 1 percent and range 4653 to 4747 ohms (unit-scaled). -/
theorem c6_resistor_band_semantics :
    (∀ rd : ResistorReading, rd.BandCount = 4 →
      (GetColorInfo rd.Band1).ValidDigit = true →
      (GetColorInfo rd.Band2).ValidDigit = true →
      (GetResistorTolerance rd.Band4).isSome = true →
      ∃ res, CalculateResistor rd = .ok res ∧
        res.ResistanceOhms =
          (((GetColorInfo rd.Band1).Digit * 10 + (GetColorInfo rd.Band2).Digit : Int) : ℚ) *
            (GetResistorMultiplier rd.Band3).1 ∧
        (∃ ti, GetResistorTolerance rd.Band4 = some ti ∧
          res.TolerancePercent = ti.Percent)) ∧
    (∀ rd : ResistorReading, rd.BandCount = 5 ∨ rd.BandCount = 6 →
      (GetColorInfo rd.Band1).ValidDigit = true →
      (GetColorInfo rd.Band2).ValidDigit = true →
      (GetColorInfo rd.Band3).ValidDigit = true →
      (GetResistorTolerance rd.Band5).isSome = true →
      ∃ res, CalculateResistor rd = .ok res ∧
        res.ResistanceOhms =
          (((GetColorInfo rd.Band1).Digit * 100 + (GetColorInfo rd.Band2).Digit * 10 +
            (GetColorInfo rd.Band3).Digit : Int) : ℚ) *
            (GetResistorMultiplier rd.Band4).1 ∧
        (∃ ti, GetResistorTolerance rd.Band5 = some ti ∧
          res.TolerancePercent = ti.Percent) ∧
        (rd.BandCount = 6 →
          (res.TempCoefficient, res.TempCoeffValid) =
            GetResistorTempCoefficient rd.Band6)) ∧
    ((CalculateResistor ⟨.yellow, .violet, .black, .brown, .brown, .black, 5⟩).toOption.map
      (fun r => (r.ResistanceOhms, r.TolerancePercent,
                 (r.MinValue, r.MinUnit), (r.MaxValue, r.MaxUnit))) =
      some (4700, 1, scaleResistance 4653, scaleResistance 4747)) := by
  refine ⟨fun rd h4 h1 h2 htol => ?_, fun rd h56 h1 h2 h3 htol => ?_, ?_⟩
  · obtain ⟨ti, hti⟩ := Option.isSome_iff_exists.mp htol
    have mt : (GetResistorMultiplier rd.Band3).2 = true := by
      cases rd.Band3 <;> rfl
    unfold CalculateResistor
    rw [if_pos h4, if_neg (by simp [h1, h2])]
    dsimp only
    rw [mt]
    simp only [Bool.not_true, Bool.false_eq_true, if_false]
    rw [if_neg (by omega), hti]
    exact ⟨_, rfl, rfl, ti, rfl, rfl⟩
  · obtain ⟨ti, hti⟩ := Option.isSome_iff_exists.mp htol
    have mt : (GetResistorMultiplier rd.Band4).2 = true := by
      cases rd.Band4 <;> rfl
    unfold CalculateResistor
    rcases h56 with h5 | h6
    · rw [if_neg (by omega), if_pos h5, if_neg (by simp [h1, h2, h3])]
      dsimp only
      rw [mt]
      simp only [Bool.not_true, Bool.false_eq_true, if_false]
      rw [if_pos (by omega), hti]
      exact ⟨_, rfl, rfl, ⟨ti, rfl, rfl⟩, fun hc => absurd hc (by omega)⟩
    · rw [if_neg (by omega), if_neg (by omega), if_pos h6,
          if_neg (by simp [h1, h2, h3])]
      dsimp only
      rw [mt]
      simp only [Bool.not_true, Bool.false_eq_true, if_false]
      rw [if_pos (by omega), hti]
      exact ⟨_, rfl, rfl, ⟨ti, rfl, rfl⟩, fun _ => rfl⟩
  · norm_num [CalculateResistor, GetColorInfo, colorMap, GetResistorMultiplier,
      resistorMultiplierMap, GetResistorTolerance, resistorToleranceMap,
      GetResistorTempCoefficient, resistorTempCoefficientMap, scaleResistance,
      Except.toOption]

/-- Claim C6 witness: the 4-band statement applied to the concrete
reading Yellow, Violet, Black, Gold (47 ohms, 5 percent). -/
theorem c6_witness :
    ((⟨.yellow, .violet, .black, .gold, .black, .black, 4⟩ : ResistorReading).BandCount = 4 ∧
     (GetColorInfo Color.yellow).ValidDigit = true ∧
     (GetColorInfo Color.violet).ValidDigit = true ∧
     (GetResistorTolerance Color.gold).isSome = true) ∧
    (∃ res, CalculateResistor ⟨.yellow, .violet, .black, .gold, .black, .black, 4⟩ =
        .ok res ∧
      res.ResistanceOhms =
        (((GetColorInfo Color.yellow).Digit * 10 + (GetColorInfo Color.violet).Digit : Int) : ℚ) *
          (GetResistorMultiplier Color.black).1 ∧
      (∃ ti, GetResistorTolerance Color.gold = some ti ∧
        res.TolerancePercent = ti.Percent)) :=
  ⟨⟨rfl, rfl, rfl, rfl⟩,
   c6_resistor_band_semantics.1 ⟨.yellow, .violet, .black, .gold, .black, .black, 4⟩
     rfl rfl rfl rfl⟩

/-- Claim C4: a voltage is looked up only when the band count is at
least 4 and Band5 is not Black (otherwise the voltage fields stay 0
and invalid, with no error); when it is looked up, the stored rating
and validity flag are exactly the fractional voltage table's output,
so an unmapped digit silently gives validity false; success of the
decode never depends on Band5 or the capacitor type. The fractional
exceptions hold: Type M with Brown gives 1.6 V, Type N with Red gives
6.3 V, and Type M with Black is invalid. -/
theorem c4_voltage_resolution :
    (∀ rd : CapacitorReading,
      (GetColorInfo rd.Band1).ValidDigit = true →
      (GetColorInfo rd.Band2).ValidDigit = true →
      (GetColorInfo rd.Band3).ValidMult = true →
      (GetToleranceInfo rd.Band4).isSome = true →
      ∃ res, Calculate rd = .ok res ∧
        ((rd.BandCount ≥ 4 ∧ rd.Band5 ≠ .black →
          (res.VoltageRating, res.VoltageValid) =
            GetVoltageRatingFractional rd.CapType rd.Band5) ∧
         (¬(rd.BandCount ≥ 4 ∧ rd.Band5 ≠ .black) →
          res.VoltageRating = 0 ∧ res.VoltageValid = false))) ∧
    (∀ (rd : CapacitorReading) (c : Color) (t : CapacitorType),
      (Calculate { rd with Band5 := c, CapType := t }).isOk = (Calculate rd).isOk) ∧
    GetVoltageRatingFractional .M .brown = (8/5, true) ∧
    GetVoltageRatingFractional .N .red = (63/10, true) ∧
    GetVoltageRatingFractional .M .black = (0, false) := by
  refine ⟨fun rd h1 h2 h3 h4 => ?_, fun rd c t => ?_, ?_, ?_, ?_⟩
  · have h4' : (calculateTolerance
        ((((GetColorInfo rd.Band1).Digit * 10 + (GetColorInfo rd.Band2).Digit : Int) : ℚ) *
          (GetColorInfo rd.Band3).Multiplier) rd.Band4).isSome = true := by
      rw [calculateToleranceIsSome]; exact h4
    obtain ⟨tol, htol⟩ := Option.isSome_iff_exists.mp h4'
    unfold Calculate
    rw [if_neg (by simp [h1, h2]), if_neg (by simp [h3])]
    simp only [htol]
    refine ⟨_, rfl, fun hc => ?_, fun hc => ?_⟩
    · dsimp only
      rw [if_pos hc]
    · dsimp only
      rw [if_neg hc]
      exact ⟨rfl, rfl⟩
  · unfold Calculate
    dsimp only
    by_cases h1 :
        (!(GetColorInfo rd.Band1).ValidDigit || !(GetColorInfo rd.Band2).ValidDigit) = true
    · rw [if_pos h1, if_pos h1]
    · rw [if_neg h1, if_neg h1]
      by_cases h2 : (!(GetColorInfo rd.Band3).ValidMult) = true
      · rw [if_pos h2, if_pos h2]
      · rw [if_neg h2, if_neg h2]
        cases calculateTolerance
          ((((GetColorInfo rd.Band1).Digit * 10 + (GetColorInfo rd.Band2).Digit : Int) : ℚ) *
            (GetColorInfo rd.Band3).Multiplier) rd.Band4 <;> rfl
  · norm_num [GetVoltageRatingFractional, GetColorInfo, colorMap, typeMVoltageMap,
      typeInfoMap]
  · norm_num [GetVoltageRatingFractional, GetColorInfo, colorMap, typeMVoltageMap,
      typeInfoMap]
    decide
  · norm_num [GetVoltageRatingFractional, GetColorInfo, colorMap, typeMVoltageMap,
      typeInfoMap]

/-- Claim C4 witness: voltage resolution applied to the concrete
reading Brown, Black, Brown, Brown with Band5 Brown and Type M. -/
theorem c4_witness :
    ((GetColorInfo Color.brown).ValidDigit = true ∧
     (GetColorInfo Color.black).ValidDigit = true ∧
     (GetColorInfo Color.brown).ValidMult = true ∧
     (GetToleranceInfo Color.brown).isSome = true) ∧
    (∃ res, Calculate ⟨.brown, .black, .brown, .brown, .brown, 4, .M⟩ = .ok res ∧
      (((⟨.brown, .black, .brown, .brown, .brown, 4, .M⟩ :
          CapacitorReading).BandCount ≥ 4 ∧
        (⟨.brown, .black, .brown, .brown, .brown, 4, .M⟩ :
          CapacitorReading).Band5 ≠ .black →
        (res.VoltageRating, res.VoltageValid) =
          GetVoltageRatingFractional .M .brown) ∧
       (¬((⟨.brown, .black, .brown, .brown, .brown, 4, .M⟩ :
            CapacitorReading).BandCount ≥ 4 ∧
          (⟨.brown, .black, .brown, .brown, .brown, 4, .M⟩ :
            CapacitorReading).Band5 ≠ .black) →
        res.VoltageRating = 0 ∧ res.VoltageValid = false))) :=
  ⟨⟨rfl, rfl, rfl, rfl⟩,
   c4_voltage_resolution.1 ⟨.brown, .black, .brown, .brown, .brown, 4, .M⟩
     rfl rfl rfl rfl⟩

/-- Claim C8 counterexample: for a tolerance color lacking an
absolute-pF value at a contextual capacitance of at most 10 pF, the
band-4 validator does not accept-with-advisory: it returns a
ValidationError, the same hard rejection used for invalid tolerance
colors, refuting the claim that the flag is non-fatal. -/
theorem c8_counterexample : (ValidateBand4 .orange 10).isSome = true := by rfl

/-- Claim C8 (amended): for every tolerance-table color without an
absolute-pF value, at contextual capacitance at most 10 pF the band-4
validator rejects the color with a descriptive band-4 ValidationError
(a hard error, not an advisory), while the calculation engine accepts
the same color there and falls back to percentage tolerance. -/
theorem c8_amended_validator_rejects :
    ∀ (c : Color) (ti : ToleranceInfo) (pF : ℚ),
      toleranceMap c = some ti → ti.AbsolutePF = 0 → pF ≤ 10 →
      (∃ e, ValidateBand4 c pF = some e ∧ e.BandNumber = 4) ∧
      (∃ r, calculateTolerance pF c = some r ∧ r.ToleranceType = "percentage") := by
  intro c ti pF hti habs hle
  constructor
  · simp only [ValidateBand4, GetToleranceInfo, hti]
    rw [if_pos ⟨hle, habs⟩]
    exact ⟨_, rfl, rfl⟩
  · simp only [calculateTolerance, GetToleranceInfo, hti]
    rw [if_pos hle, if_pos habs]
    exact ⟨_, rfl, rfl⟩

/-- Claim C8 witness: the amended statement applied to Orange at the
concrete capacitance 5 pF. -/
theorem c8_witness :
    (toleranceMap .orange = some ⟨3, 3, true, 0⟩ ∧
     (⟨3, 3, true, 0⟩ : ToleranceInfo).AbsolutePF = 0 ∧ (5 : ℚ) ≤ 10) ∧
    ((∃ e, ValidateBand4 .orange 5 = some e ∧ e.BandNumber = 4) ∧
     (∃ r, calculateTolerance 5 .orange = some r ∧ r.ToleranceType = "percentage")) :=
  ⟨⟨rfl, rfl, by decide⟩,
   c8_amended_validator_rejects .orange ⟨3, 3, true, 0⟩ 5 rfl rfl (by decide)⟩

end Tropical
